import Mathlib

/-!
Verification of `l2rpn_baselines/utils/TrainingParam.py` against its
natural-language specification.

Modelling conventions.

* Python numbers are `PyVal`: an `int` (modelled as `ℤ`) or a `float`
  (modelled as an exact rational `ℚ`; the spec states its numeric claims
  "under exact arithmetic" / "within tolerance").
* `np.log` / `np.exp` are the real `Real.log` / `Real.exp`; the derived
  attribute `_exp_facto` is therefore a real number (field `exp_facto`).
* Python exceptions are the error type `PyErr`; a raising operation returns
  `Except PyErr _`.  `PyErr.InvalidConfiguration` is modelled from the spec
  (the spec's `InvalidConfiguration` error kind); no code in the repository
  raises it.
* `int(x)` truncates toward zero (`ratTrunc`), `float(x)` is `pyFloat`,
  Python `%` is `pyMod` (result has the sign of the divisor) and raises
  `ZeroDivisionError` on a zero divisor, as does true division `/`.
* Python dicts with string keys are association lists (`Dict`); `to_dict`
  inserts the `_int_attr` keys then the `_float_attr` keys, in list order,
  each key once, so lookup (`dlookup`) is faithful.
-/

namespace L2RPN

/-- A Python numeric value: an `int` or a `float` (floats as exact rationals). -/
inductive PyVal where
  | int : ℤ → PyVal
  | float : ℚ → PyVal
deriving DecidableEq, Repr

/-- The numeric content of a Python value. -/
def PyVal.toRat : PyVal → ℚ
  | .int n => (n : ℚ)
  | .float q => q

/-- Is the value a Python `int` (as opposed to a `float`)? -/
def PyVal.isIntVal : PyVal → Bool
  | .int _ => true
  | .float _ => false

/-- Python truncation toward zero, the behaviour of `int(x)` on a number. -/
def ratTrunc (q : ℚ) : ℤ := if 0 ≤ q then ⌊q⌋ else ⌈q⌉

/-- Python `float(x)` on a number. -/
def pyFloat (v : PyVal) : PyVal := .float v.toRat

/-- Python `int(x)` on a number. -/
def pyIntOf (v : PyVal) : PyVal := .int (ratTrunc v.toRat)

/-- Python `a % b` for a nonzero divisor `b`: the remainder has the sign of
the divisor, `a % b = a - b * floor(a / b)`. -/
def pyMod (a b : ℚ) : ℚ := a - b * ⌊a / b⌋

/-- The Python exceptions raised by `TrainingParam.py`, plus the spec's
`InvalidConfiguration` error kind.  `InvalidConfiguration` is modelled from
the spec (error-handling table); no code in the repository raises it. -/
inductive PyErr where
  | RuntimeError : PyErr
  | NotADirectoryError : PyErr
  | FileNotFoundError : PyErr
  | ZeroDivisionError : PyErr
  | InvalidConfiguration : PyErr
deriving DecidableEq, Repr

/-- The state of a `TrainingParam` object: one field per Python attribute.
`exp_facto` models `_exp_facto` (a real, since it is set with `np.log`);
`max_iter_fun` is the pluggable function attribute. -/
structure TrainingParam where
  buffer_size : PyVal
  minibatch_size : PyVal
  min_observation : PyVal
  final_epsilon : PyVal
  initial_epsilon : PyVal
  step_for_final_epsilon : PyVal
  lr : PyVal
  lr_decay_steps : PyVal
  lr_decay_rate : PyVal
  last_step : PyVal
  num_frames : PyVal
  discount_factor : PyVal
  tau : PyVal
  update_freq : PyVal
  min_iter : PyVal
  max_iter : PyVal
  exp_facto : ℝ
  max_iter_fun : ℚ → ℤ
  update_tensorboard_freq : PyVal
  save_model_each : PyVal

/-- `TrainingParam._int_attr` (note: it contains `"last_step"`). -/
def TrainingParam.int_attr : List String :=
  ["buffer_size", "minibatch_size", "step_for_final_epsilon",
   "min_observation", "last_step", "num_frames", "update_freq",
   "min_iter", "max_iter", "update_tensorboard_freq", "save_model_each"]

/-- `TrainingParam._float_attr`. -/
def TrainingParam.float_attr : List String :=
  ["final_epsilon", "initial_epsilon", "lr", "lr_decay_steps", "lr_decay_rate",
   "discount_factor", "tau"]

/-- `TrainingParam.default_max_iter_fun`: `int(nb_success * 0.1)`. -/
def default_max_iter_fun (nb_success : ℚ) : ℤ := ratTrunc (nb_success * 0.1)

/-- `TrainingParam.__init__`, arguments in source order.  Exactly the
source's coercions: `float(...)` on `final_epsilon`, `initial_epsilon`,
`step_for_final_epsilon`, `lr_decay_steps`, `lr_decay_rate`,
`discount_factor`, `tau`; `int(...)` on `num_frames`; every other argument
stored as passed.  `last_step` starts at `0`; `_exp_facto` is
`np.log(initial_epsilon / final_epsilon)` when `final_epsilon > 0`, else `1`;
`max_iter_fun` is bound to the default policy. -/
noncomputable def TrainingParam.init
    (buffer_size minibatch_size step_for_final_epsilon min_observation
     final_epsilon initial_epsilon lr lr_decay_steps lr_decay_rate
     num_frames discount_factor tau update_freq min_iter max_iter
     update_tensorboard_freq save_model_each : PyVal) : TrainingParam where
  buffer_size := buffer_size
  minibatch_size := minibatch_size
  min_observation := min_observation
  final_epsilon := pyFloat final_epsilon
  initial_epsilon := pyFloat initial_epsilon
  step_for_final_epsilon := pyFloat step_for_final_epsilon
  lr := lr
  lr_decay_steps := pyFloat lr_decay_steps
  lr_decay_rate := pyFloat lr_decay_rate
  last_step := .int 0
  num_frames := pyIntOf num_frames
  discount_factor := pyFloat discount_factor
  tau := pyFloat tau
  update_freq := update_freq
  min_iter := min_iter
  max_iter := max_iter
  exp_facto :=
    if (pyFloat final_epsilon).toRat > 0 then
      Real.log (((pyFloat initial_epsilon).toRat : ℝ) / ((pyFloat final_epsilon).toRat : ℝ))
    else 1
  max_iter_fun := default_max_iter_fun
  update_tensorboard_freq := update_tensorboard_freq
  save_model_each := save_model_each

/-- A `TrainingParam()` built with all the keyword defaults of the source's
signature: `buffer_size=40000`, `minibatch_size=64`,
`step_for_final_epsilon=100000`, `min_observation=5000`,
`final_epsilon=1./(7*288.)`, `initial_epsilon=0.4`, `lr=1e-4`,
`lr_decay_steps=10000`, `lr_decay_rate=0.999`, `num_frames=1`,
`discount_factor=0.99`, `tau=0.1`, `update_freq=256`, `min_iter=50`,
`max_iter=8064`, `update_tensorboard_freq=1000`, `save_model_each=10000`. -/
noncomputable def TrainingParam.default : TrainingParam :=
  TrainingParam.init (.int 40000) (.int 64) (.int 100000) (.int 5000)
    (.float (1 / (7 * 288))) (.float 0.4) (.float 1e-4) (.int 10000)
    (.float 0.999) (.int 1) (.float 0.99) (.float 0.1) (.int 256) (.int 50)
    (.int 8064) (.int 1000) (.int 10000)

/-- `TrainingParam.tell_step`: sets `last_step` to `current_step`. -/
def TrainingParam.tell_step (p : TrainingParam) (current_step : PyVal) : TrainingParam :=
  { p with last_step := current_step }

/-- `TrainingParam.get_next_epsilon`: sets `last_step = current_step`, then
returns `final_epsilon` if `current_step > step_for_final_epsilon`, else
`initial_epsilon * exp(-(current_step / step_for_final_epsilon) * _exp_facto)`.
The division raises `ZeroDivisionError` when `step_for_final_epsilon` is zero
(Python `/` on a zero divisor); the `last_step` assignment has already
happened when that is raised, so the new state is returned alongside. -/
noncomputable def TrainingParam.get_next_epsilon (p : TrainingParam)
    (current_step : PyVal) : TrainingParam × Except PyErr ℝ :=
  ({ p with last_step := current_step },
   if current_step.toRat > p.step_for_final_epsilon.toRat then
     .ok ((p.final_epsilon.toRat : ℝ))
   else if p.step_for_final_epsilon.toRat = 0 then
     .error .ZeroDivisionError
   else
     .ok ((p.initial_epsilon.toRat : ℝ) *
       Real.exp (-(((current_step.toRat : ℝ)) / ((p.step_for_final_epsilon.toRat : ℝ)))
         * p.exp_facto)))

/-- A Python `dict` mapping attribute names to numbers, as an association
list in insertion order. -/
abbrev Dict := List (String × PyVal)

/-- `tmp[attr_nm]` / `attr_nm in tmp` combined: look a key up. -/
def dlookup : Dict → String → Option PyVal
  | [], _ => none
  | (k, v) :: rest, a => if k = a then some v else dlookup rest a

/-- `getattr(p, a)` for the attribute names in `_int_attr` and `_float_attr`. -/
def TrainingParam.getattrPy (p : TrainingParam) (a : String) : PyVal :=
  if a = "buffer_size" then p.buffer_size
  else if a = "minibatch_size" then p.minibatch_size
  else if a = "step_for_final_epsilon" then p.step_for_final_epsilon
  else if a = "min_observation" then p.min_observation
  else if a = "last_step" then p.last_step
  else if a = "num_frames" then p.num_frames
  else if a = "update_freq" then p.update_freq
  else if a = "min_iter" then p.min_iter
  else if a = "max_iter" then p.max_iter
  else if a = "update_tensorboard_freq" then p.update_tensorboard_freq
  else if a = "save_model_each" then p.save_model_each
  else if a = "final_epsilon" then p.final_epsilon
  else if a = "initial_epsilon" then p.initial_epsilon
  else if a = "lr" then p.lr
  else if a = "lr_decay_steps" then p.lr_decay_steps
  else if a = "lr_decay_rate" then p.lr_decay_rate
  else if a = "discount_factor" then p.discount_factor
  else p.tau

/-- `setattr(p, a, v)` for the attribute names in `_int_attr` and
`_float_attr`. -/
def TrainingParam.setattrPy (p : TrainingParam) (a : String) (v : PyVal) : TrainingParam :=
  if a = "buffer_size" then { p with buffer_size := v }
  else if a = "minibatch_size" then { p with minibatch_size := v }
  else if a = "step_for_final_epsilon" then { p with step_for_final_epsilon := v }
  else if a = "min_observation" then { p with min_observation := v }
  else if a = "last_step" then { p with last_step := v }
  else if a = "num_frames" then { p with num_frames := v }
  else if a = "update_freq" then { p with update_freq := v }
  else if a = "min_iter" then { p with min_iter := v }
  else if a = "max_iter" then { p with max_iter := v }
  else if a = "update_tensorboard_freq" then { p with update_tensorboard_freq := v }
  else if a = "save_model_each" then { p with save_model_each := v }
  else if a = "final_epsilon" then { p with final_epsilon := v }
  else if a = "initial_epsilon" then { p with initial_epsilon := v }
  else if a = "lr" then { p with lr := v }
  else if a = "lr_decay_steps" then { p with lr_decay_steps := v }
  else if a = "lr_decay_rate" then { p with lr_decay_rate := v }
  else if a = "discount_factor" then { p with discount_factor := v }
  else { p with tau := v }

/-- `TrainingParam.to_dict`: `res[a] = int(getattr(self, a))` for every `a`
in `_int_attr`, then `res[a] = float(getattr(self, a))` for every `a` in
`_float_attr`. -/
def TrainingParam.to_dict (p : TrainingParam) : Dict :=
  (TrainingParam.int_attr.map (fun a => (a, pyIntOf (p.getattrPy a)))) ++
  (TrainingParam.float_attr.map (fun a => (a, pyFloat (p.getattrPy a))))

/-- `TrainingParam.from_dict`: start from `TrainingParam()` (all defaults);
for each `_int_attr` name present in `tmp` set the attribute to
`int(tmp[a])`, for each `_float_attr` name present set it to
`float(tmp[a])`; finally recompute `_exp_facto` by the constructor's rule. -/
noncomputable def TrainingParam.from_dict (tmp : Dict) : TrainingParam :=
  let res : TrainingParam := TrainingParam.default
  let res : TrainingParam := TrainingParam.int_attr.foldl (fun r a =>
    match dlookup tmp a with
    | some v => r.setattrPy a (.int (ratTrunc v.toRat))
    | none => r) res
  let res : TrainingParam := TrainingParam.float_attr.foldl (fun r a =>
    match dlookup tmp a with
    | some v => r.setattrPy a (.float v.toRat)
    | none => r) res
  { res with exp_facto :=
      if res.final_epsilon.toRat > 0 then
        Real.log ((res.initial_epsilon.toRat : ℝ) / (res.final_epsilon.toRat : ℝ))
      else 1 }

/-- `TrainingParam.do_train`: `last_step % update_freq == 0`; Python `%`
raises `ZeroDivisionError` when `update_freq` is zero. -/
def TrainingParam.do_train (p : TrainingParam) : Except PyErr Bool :=
  if p.update_freq.toRat = 0 then .error .ZeroDivisionError
  else .ok (decide (pyMod p.last_step.toRat p.update_freq.toRat = 0))

/-- `json.dump(..., sort_keys=True)`: the entries ordered by key. -/
def sortKeys (d : Dict) : Dict :=
  List.insertionSort (fun x y => x.1 ≤ y.1) d

/-- `TrainingParam.save_as_json`: computes `to_dict()`, defaults the file
name, raises `RuntimeError` (the spec's `DirectoryNotFound`) if the path does
not exist, `NotADirectoryError` if it is not a directory, and otherwise
writes the key-sorted dict to `path/name`.  The file system is abstracted to
the two predicates the code queries about `path` (`os.path.exists` and
`os.path.isdir`); the result on success is the written location and content. -/
def TrainingParam.save_as_json (p : TrainingParam) (pathExists isDirectory : Bool)
    (path : String) (name : Option String) : Except PyErr (String × Dict) :=
  let res := p.to_dict
  let file := match name with
    | none => "training_parameters.json"
    | some n => n
  if pathExists = false then .error .RuntimeError
  else if isDirectory = false then .error .NotADirectoryError
  else .ok (path ++ "/" ++ file, sortKeys res)

/-- The spec's `_exp_facto` invariant, as a predicate on states:
`exp_facto = ln(initial_epsilon / final_epsilon)` when `final_epsilon > 0`,
else `1`. -/
def expFactoInv (p : TrainingParam) : Prop :=
  p.exp_facto =
    if p.final_epsilon.toRat > 0 then
      Real.log ((p.initial_epsilon.toRat : ℝ) / (p.final_epsilon.toRat : ℝ))
    else 1

/-- A `TrainingParam(update_freq=0)`: every constructor argument at its
source default except `update_freq`, which is `0`. -/
noncomputable def zeroFreqTP : TrainingParam :=
  TrainingParam.init (.int 40000) (.int 64) (.int 100000) (.int 5000)
    (.float (1 / (7 * 288))) (.float 0.4) (.float 1e-4) (.int 10000)
    (.float 0.999) (.int 1) (.float 0.99) (.float 0.1) (.int 0) (.int 50)
    (.int 8064) (.int 1000) (.int 10000)

/-- A `TrainingParam(step_for_final_epsilon=0)`: every constructor argument
at its source default except `step_for_final_epsilon`, which is `0`. -/
noncomputable def zeroStepTP : TrainingParam :=
  TrainingParam.init (.int 40000) (.int 64) (.int 0) (.int 5000)
    (.float (1 / (7 * 288))) (.float 0.4) (.float 1e-4) (.int 10000)
    (.float 0.999) (.int 1) (.float 0.99) (.float 0.1) (.int 256) (.int 50)
    (.int 8064) (.int 1000) (.int 10000)

/-- A `TrainingParam(buffer_size=0.5)`: every constructor argument at its
source default except `buffer_size`, which is the float `0.5`. -/
noncomputable def halfBufTP : TrainingParam :=
  TrainingParam.init (.float (1/2)) (.int 64) (.int 100000) (.int 5000)
    (.float (1 / (7 * 288))) (.float 0.4) (.float 1e-4) (.int 10000)
    (.float 0.999) (.int 1) (.float 0.99) (.float 0.1) (.int 256) (.int 50)
    (.int 8064) (.int 1000) (.int 10000)

/-- A `TrainingParam(final_epsilon=0.5, initial_epsilon=1.0)`: a valid decay
configuration (`initial_epsilon > final_epsilon > 0`), other arguments at
their source defaults. -/
noncomputable def decayTP : TrainingParam :=
  TrainingParam.init (.int 40000) (.int 64) (.int 100000) (.int 5000)
    (.float (1/2)) (.float 1) (.float 1e-4) (.int 10000)
    (.float 0.999) (.int 1) (.float 0.99) (.float 0.1) (.int 256) (.int 50)
    (.int 8064) (.int 1000) (.int 10000)

set_option maxHeartbeats 1000000

theorem toRat_float (q : ℚ) : (PyVal.float q).toRat = q := rfl

theorem toRat_int (n : ℤ) : (PyVal.int n).toRat = (n : ℚ) := rfl

theorem ratTrunc_intCast (n : ℤ) : ratTrunc (n : ℚ) = n := by
  unfold ratTrunc
  split_ifs <;> simp

theorem ratTrunc_den_one (q : ℚ) (h : q.den = 1) : ((ratTrunc q : ℤ) : ℚ) = q := by
  have e : ((q.num : ℚ)) = q := (Rat.den_eq_one_iff q).1 h
  rw [← e, ratTrunc_intCast]

theorem int_roundtrip (q : ℚ) (h : q.den = 1) :
    ((ratTrunc ((ratTrunc q : ℤ) : ℚ) : ℤ) : ℚ) = q := by
  rw [ratTrunc_intCast]
  exact ratTrunc_den_one q h

theorem stepInt_buffer_size_last_step (d : Dict) (r : TrainingParam) :
    (match dlookup d "buffer_size" with
     | some v => TrainingParam.setattrPy r "buffer_size" (PyVal.int (ratTrunc v.toRat))
     | none => r).last_step = r.last_step := by
  cases dlookup d "buffer_size" <;> rfl

theorem stepInt_minibatch_size_last_step (d : Dict) (r : TrainingParam) :
    (match dlookup d "minibatch_size" with
     | some v => TrainingParam.setattrPy r "minibatch_size" (PyVal.int (ratTrunc v.toRat))
     | none => r).last_step = r.last_step := by
  cases dlookup d "minibatch_size" <;> rfl

theorem stepInt_step_for_final_epsilon_last_step (d : Dict) (r : TrainingParam) :
    (match dlookup d "step_for_final_epsilon" with
     | some v => TrainingParam.setattrPy r "step_for_final_epsilon" (PyVal.int (ratTrunc v.toRat))
     | none => r).last_step = r.last_step := by
  cases dlookup d "step_for_final_epsilon" <;> rfl

theorem stepInt_min_observation_last_step (d : Dict) (r : TrainingParam) :
    (match dlookup d "min_observation" with
     | some v => TrainingParam.setattrPy r "min_observation" (PyVal.int (ratTrunc v.toRat))
     | none => r).last_step = r.last_step := by
  cases dlookup d "min_observation" <;> rfl

theorem stepInt_num_frames_last_step (d : Dict) (r : TrainingParam) :
    (match dlookup d "num_frames" with
     | some v => TrainingParam.setattrPy r "num_frames" (PyVal.int (ratTrunc v.toRat))
     | none => r).last_step = r.last_step := by
  cases dlookup d "num_frames" <;> rfl

theorem stepInt_update_freq_last_step (d : Dict) (r : TrainingParam) :
    (match dlookup d "update_freq" with
     | some v => TrainingParam.setattrPy r "update_freq" (PyVal.int (ratTrunc v.toRat))
     | none => r).last_step = r.last_step := by
  cases dlookup d "update_freq" <;> rfl

theorem stepInt_min_iter_last_step (d : Dict) (r : TrainingParam) :
    (match dlookup d "min_iter" with
     | some v => TrainingParam.setattrPy r "min_iter" (PyVal.int (ratTrunc v.toRat))
     | none => r).last_step = r.last_step := by
  cases dlookup d "min_iter" <;> rfl

theorem stepInt_max_iter_last_step (d : Dict) (r : TrainingParam) :
    (match dlookup d "max_iter" with
     | some v => TrainingParam.setattrPy r "max_iter" (PyVal.int (ratTrunc v.toRat))
     | none => r).last_step = r.last_step := by
  cases dlookup d "max_iter" <;> rfl

theorem stepInt_update_tensorboard_freq_last_step (d : Dict) (r : TrainingParam) :
    (match dlookup d "update_tensorboard_freq" with
     | some v => TrainingParam.setattrPy r "update_tensorboard_freq" (PyVal.int (ratTrunc v.toRat))
     | none => r).last_step = r.last_step := by
  cases dlookup d "update_tensorboard_freq" <;> rfl

theorem stepInt_save_model_each_last_step (d : Dict) (r : TrainingParam) :
    (match dlookup d "save_model_each" with
     | some v => TrainingParam.setattrPy r "save_model_each" (PyVal.int (ratTrunc v.toRat))
     | none => r).last_step = r.last_step := by
  cases dlookup d "save_model_each" <;> rfl

theorem stepFloat_final_epsilon_last_step (d : Dict) (r : TrainingParam) :
    (match dlookup d "final_epsilon" with
     | some v => TrainingParam.setattrPy r "final_epsilon" (PyVal.float v.toRat)
     | none => r).last_step = r.last_step := by
  cases dlookup d "final_epsilon" <;> rfl

theorem stepFloat_initial_epsilon_last_step (d : Dict) (r : TrainingParam) :
    (match dlookup d "initial_epsilon" with
     | some v => TrainingParam.setattrPy r "initial_epsilon" (PyVal.float v.toRat)
     | none => r).last_step = r.last_step := by
  cases dlookup d "initial_epsilon" <;> rfl

theorem stepFloat_lr_last_step (d : Dict) (r : TrainingParam) :
    (match dlookup d "lr" with
     | some v => TrainingParam.setattrPy r "lr" (PyVal.float v.toRat)
     | none => r).last_step = r.last_step := by
  cases dlookup d "lr" <;> rfl

theorem stepFloat_lr_decay_steps_last_step (d : Dict) (r : TrainingParam) :
    (match dlookup d "lr_decay_steps" with
     | some v => TrainingParam.setattrPy r "lr_decay_steps" (PyVal.float v.toRat)
     | none => r).last_step = r.last_step := by
  cases dlookup d "lr_decay_steps" <;> rfl

theorem stepFloat_lr_decay_rate_last_step (d : Dict) (r : TrainingParam) :
    (match dlookup d "lr_decay_rate" with
     | some v => TrainingParam.setattrPy r "lr_decay_rate" (PyVal.float v.toRat)
     | none => r).last_step = r.last_step := by
  cases dlookup d "lr_decay_rate" <;> rfl

theorem stepFloat_discount_factor_last_step (d : Dict) (r : TrainingParam) :
    (match dlookup d "discount_factor" with
     | some v => TrainingParam.setattrPy r "discount_factor" (PyVal.float v.toRat)
     | none => r).last_step = r.last_step := by
  cases dlookup d "discount_factor" <;> rfl

theorem stepFloat_tau_last_step (d : Dict) (r : TrainingParam) :
    (match dlookup d "tau" with
     | some v => TrainingParam.setattrPy r "tau" (PyVal.float v.toRat)
     | none => r).last_step = r.last_step := by
  cases dlookup d "tau" <;> rfl

theorem from_dict_last_step (d : Dict) :
    (TrainingParam.from_dict d).last_step =
      (match dlookup d "last_step" with
       | some v => PyVal.int (ratTrunc v.toRat)
       | none => PyVal.int 0) := by
  unfold TrainingParam.from_dict
  simp only [TrainingParam.int_attr, TrainingParam.float_attr, List.foldl]
  simp only [stepInt_buffer_size_last_step, stepInt_minibatch_size_last_step, stepInt_step_for_final_epsilon_last_step, stepInt_min_observation_last_step, stepInt_num_frames_last_step, stepInt_update_freq_last_step, stepInt_min_iter_last_step, stepInt_max_iter_last_step, stepInt_update_tensorboard_freq_last_step, stepInt_save_model_each_last_step, stepFloat_final_epsilon_last_step, stepFloat_initial_epsilon_last_step, stepFloat_lr_last_step, stepFloat_lr_decay_steps_last_step, stepFloat_lr_decay_rate_last_step, stepFloat_discount_factor_last_step, stepFloat_tau_last_step]
  cases h : dlookup d "last_step" with
  | none =>
      simp only [stepInt_buffer_size_last_step, stepInt_minibatch_size_last_step,
        stepInt_step_for_final_epsilon_last_step, stepInt_min_observation_last_step]
      rfl
  | some v => rfl

/-- Claim C1 counterexample: constructing with `update_freq=0` and calling
`do_train` raises the raw `ZeroDivisionError` of Python's `%`, not the
spec's `InvalidConfiguration` error. -/
theorem do_train_zero_update_freq_cex :
    zeroFreqTP.do_train = Except.error PyErr.ZeroDivisionError ∧
    zeroFreqTP.do_train ≠ Except.error PyErr.InvalidConfiguration := by
  constructor
  · rfl
  · rw [show zeroFreqTP.do_train = Except.error PyErr.ZeroDivisionError from rfl]
    simp

/-- Claim C1 (amended): if `update_freq == 0`, calling `do_train` fails with
the raw modulo-by-zero fault, a `ZeroDivisionError` (there is no
`InvalidConfiguration` handling in the code). -/
theorem do_train_zero_update_freq (p : TrainingParam)
    (h : p.update_freq.toRat = 0) :
    p.do_train = Except.error PyErr.ZeroDivisionError := by
  simp [TrainingParam.do_train, h]

/-- Witness for the amended C1 theorem at the concrete state
`TrainingParam(update_freq=0)`. -/
theorem do_train_zero_update_freq_witness :
    zeroFreqTP.do_train = Except.error PyErr.ZeroDivisionError :=
  do_train_zero_update_freq zeroFreqTP rfl

/-- Claim C2 counterexample: `to_dict` of a default `TrainingParam` does
contain the key `"last_step"` (it is in `_int_attr`), and `from_dict` of a
mapping with a `"last_step"` entry does not leave `last_step` at `0`. -/
theorem last_step_persisted_cex :
    (dlookup (TrainingParam.to_dict TrainingParam.default) "last_step").isSome = true ∧
    (TrainingParam.from_dict [("last_step", PyVal.int 5)]).last_step ≠ PyVal.int 0 := by
  constructor
  · decide
  · decide

/-- Claim C2 (amended): `last_step` is included in persistence: `to_dict`
always contains the key `"last_step"` with value `int(last_step)`, and
`from_dict` overwrites `last_step` with the integer-coerced value of a
present `"last_step"` entry, leaving it at the default `0` only when the
key is absent. -/
theorem last_step_persisted (p : TrainingParam) (d : Dict) (v : PyVal) :
    dlookup p.to_dict "last_step" = some (pyIntOf p.last_step) ∧
    (dlookup d "last_step" = some v →
      (TrainingParam.from_dict d).last_step = PyVal.int (ratTrunc v.toRat)) ∧
    (dlookup d "last_step" = none →
      (TrainingParam.from_dict d).last_step = PyVal.int 0) := by
  refine ⟨rfl, ?_, ?_⟩
  · intro h
    rw [from_dict_last_step, h]
  · intro h
    rw [from_dict_last_step, h]

/-- Witness for the amended C2 theorem: a mapping carrying `last_step = 5`
is applied by `from_dict`. -/
theorem last_step_persisted_witness :
    (TrainingParam.from_dict [("last_step", PyVal.int 5)]).last_step =
      PyVal.int (ratTrunc (PyVal.int 5).toRat) :=
  (last_step_persisted TrainingParam.default
    [("last_step", PyVal.int 5)] (PyVal.int 5)).2.1 rfl

/-- Claim C3 counterexample: with `step_for_final_epsilon = 0` (a
constructible state) and `current_step = 0`, `get_next_epsilon` does not
return a value at all: the division `current_step / step_for_final_epsilon`
raises `ZeroDivisionError`. -/
theorem get_next_epsilon_cex :
    (zeroStepTP.get_next_epsilon (.int 0)).2 = Except.error PyErr.ZeroDivisionError ∧
    (zeroStepTP.get_next_epsilon (.int 0)).2 ≠
      Except.ok ((zeroStepTP.initial_epsilon.toRat : ℝ) *
        Real.exp (-(((PyVal.int 0).toRat : ℝ) / (zeroStepTP.step_for_final_epsilon.toRat : ℝ))
          * zeroStepTP.exp_facto)) := by
  constructor
  · rfl
  · rw [show (zeroStepTP.get_next_epsilon (.int 0)).2 = Except.error PyErr.ZeroDivisionError
      from rfl]
    simp

/-- Claim C3 (amended): `get_next_epsilon(current_step)` sets `last_step` to
`current_step`; it returns `final_epsilon` when
`current_step > step_for_final_epsilon`, returns
`initial_epsilon * exp(-(current_step / step_for_final_epsilon) * _exp_facto)`
when `current_step ≤ step_for_final_epsilon` and
`step_for_final_epsilon ≠ 0`, and raises `ZeroDivisionError` when
`current_step ≤ step_for_final_epsilon = 0`. -/
theorem get_next_epsilon_cases (p : TrainingParam) (v : PyVal) :
    (p.get_next_epsilon v).1.last_step = v ∧
    (v.toRat > p.step_for_final_epsilon.toRat →
      (p.get_next_epsilon v).2 = Except.ok ((p.final_epsilon.toRat : ℝ))) ∧
    (¬ v.toRat > p.step_for_final_epsilon.toRat →
      ¬ p.step_for_final_epsilon.toRat = 0 →
      (p.get_next_epsilon v).2 = Except.ok ((p.initial_epsilon.toRat : ℝ) *
        Real.exp (-((v.toRat : ℝ) / (p.step_for_final_epsilon.toRat : ℝ)) * p.exp_facto))) ∧
    (¬ v.toRat > p.step_for_final_epsilon.toRat →
      p.step_for_final_epsilon.toRat = 0 →
      (p.get_next_epsilon v).2 = Except.error PyErr.ZeroDivisionError) := by
  refine ⟨rfl, ?_, ?_, ?_⟩
  · intro h
    simp only [TrainingParam.get_next_epsilon]
    rw [if_pos h]
  · intro h1 h2
    simp only [TrainingParam.get_next_epsilon]
    rw [if_neg h1, if_neg h2]
  · intro h1 h2
    simp only [TrainingParam.get_next_epsilon]
    rw [if_neg h1, if_pos h2]

/-- Witness for the amended C3 theorem: at the default configuration,
`current_step = 200000` is past `step_for_final_epsilon = 100000`, so the
result is `final_epsilon`. -/
theorem get_next_epsilon_cases_witness :
    (TrainingParam.default.get_next_epsilon (.int 200000)).2 =
      Except.ok ((TrainingParam.default.final_epsilon.toRat : ℝ)) :=
  (get_next_epsilon_cases TrainingParam.default (.int 200000)).2.1 (by decide)

/-- Claim C10: `tell_step` and `get_next_epsilon` modify only `last_step`:
every other field of the state, including `initial_epsilon`,
`final_epsilon`, `step_for_final_epsilon`, `_exp_facto`, `update_freq` and
`max_iter_fun`, is unchanged. -/
theorem tell_step_get_next_epsilon_frame (p : TrainingParam) (v : PyVal) :
    ((p.tell_step v).buffer_size = p.buffer_size ∧
     (p.tell_step v).minibatch_size = p.minibatch_size ∧
     (p.tell_step v).min_observation = p.min_observation ∧
     (p.tell_step v).final_epsilon = p.final_epsilon ∧
     (p.tell_step v).initial_epsilon = p.initial_epsilon ∧
     (p.tell_step v).step_for_final_epsilon = p.step_for_final_epsilon ∧
     (p.tell_step v).lr = p.lr ∧
     (p.tell_step v).lr_decay_steps = p.lr_decay_steps ∧
     (p.tell_step v).lr_decay_rate = p.lr_decay_rate ∧
     (p.tell_step v).num_frames = p.num_frames ∧
     (p.tell_step v).discount_factor = p.discount_factor ∧
     (p.tell_step v).tau = p.tau ∧
     (p.tell_step v).update_freq = p.update_freq ∧
     (p.tell_step v).min_iter = p.min_iter ∧
     (p.tell_step v).max_iter = p.max_iter ∧
     (p.tell_step v).exp_facto = p.exp_facto ∧
     (p.tell_step v).max_iter_fun = p.max_iter_fun ∧
     (p.tell_step v).update_tensorboard_freq = p.update_tensorboard_freq ∧
     (p.tell_step v).save_model_each = p.save_model_each) ∧
    ((p.get_next_epsilon v).1.buffer_size = p.buffer_size ∧
     (p.get_next_epsilon v).1.minibatch_size = p.minibatch_size ∧
     (p.get_next_epsilon v).1.min_observation = p.min_observation ∧
     (p.get_next_epsilon v).1.final_epsilon = p.final_epsilon ∧
     (p.get_next_epsilon v).1.initial_epsilon = p.initial_epsilon ∧
     (p.get_next_epsilon v).1.step_for_final_epsilon = p.step_for_final_epsilon ∧
     (p.get_next_epsilon v).1.lr = p.lr ∧
     (p.get_next_epsilon v).1.lr_decay_steps = p.lr_decay_steps ∧
     (p.get_next_epsilon v).1.lr_decay_rate = p.lr_decay_rate ∧
     (p.get_next_epsilon v).1.num_frames = p.num_frames ∧
     (p.get_next_epsilon v).1.discount_factor = p.discount_factor ∧
     (p.get_next_epsilon v).1.tau = p.tau ∧
     (p.get_next_epsilon v).1.update_freq = p.update_freq ∧
     (p.get_next_epsilon v).1.min_iter = p.min_iter ∧
     (p.get_next_epsilon v).1.max_iter = p.max_iter ∧
     (p.get_next_epsilon v).1.exp_facto = p.exp_facto ∧
     (p.get_next_epsilon v).1.max_iter_fun = p.max_iter_fun ∧
     (p.get_next_epsilon v).1.update_tensorboard_freq = p.update_tensorboard_freq ∧
     (p.get_next_epsilon v).1.save_model_each = p.save_model_each) :=
  ⟨⟨rfl, rfl, rfl, rfl, rfl, rfl, rfl, rfl, rfl, rfl, rfl, rfl, rfl, rfl, rfl, rfl,
    rfl, rfl, rfl⟩,
   ⟨rfl, rfl, rfl, rfl, rfl, rfl, rfl, rfl, rfl, rfl, rfl, rfl, rfl, rfl, rfl, rfl,
    rfl, rfl, rfl⟩⟩


/-- Claim C4: under exact arithmetic, for a `TrainingParam` whose
`_exp_facto` satisfies the decay invariant and whose
`initial_epsilon > final_epsilon > 0` and `step_for_final_epsilon > 0`:
`get_next_epsilon(0)` is `initial_epsilon`,
`get_next_epsilon(step_for_final_epsilon)` is exactly `final_epsilon`, and
the returned value is non-increasing in `current_step` on
`[0, step_for_final_epsilon]`. -/
theorem get_next_epsilon_decay_schedule (p : TrainingParam)
    (hfacto : p.exp_facto = Real.log ((p.initial_epsilon.toRat : ℝ) / (p.final_epsilon.toRat : ℝ)))
    (h0 : (0:ℚ) < p.final_epsilon.toRat)
    (h1 : p.final_epsilon.toRat < p.initial_epsilon.toRat)
    (hs : (0:ℚ) < p.step_for_final_epsilon.toRat) :
    (p.get_next_epsilon (.int 0)).2 = Except.ok ((p.initial_epsilon.toRat : ℝ)) ∧
    (p.get_next_epsilon (.float p.step_for_final_epsilon.toRat)).2 =
      Except.ok ((p.final_epsilon.toRat : ℝ)) ∧
    (∀ a b : ℚ, 0 ≤ a → a ≤ b → b ≤ p.step_for_final_epsilon.toRat →
      ∀ x y : ℝ, (p.get_next_epsilon (.float a)).2 = Except.ok x →
        (p.get_next_epsilon (.float b)).2 = Except.ok y → y ≤ x) := by
  have hF : (0:ℝ) < (p.final_epsilon.toRat : ℝ) := by exact_mod_cast h0
  have hI : (p.final_epsilon.toRat : ℝ) < (p.initial_epsilon.toRat : ℝ) := by exact_mod_cast h1
  have hI0 : (0:ℝ) < (p.initial_epsilon.toRat : ℝ) := lt_trans hF hI
  have hsR : (0:ℝ) < (p.step_for_final_epsilon.toRat : ℝ) := by exact_mod_cast hs
  have hlog : 0 ≤ p.exp_facto := by
    rw [hfacto]
    exact Real.log_nonneg ((one_le_div hF).2 (le_of_lt hI))
  have c2 : ¬ (p.step_for_final_epsilon.toRat = 0) := ne_of_gt hs
  refine ⟨?_, ?_, ?_⟩
  · have c1 : ¬ ((0:ℚ) > p.step_for_final_epsilon.toRat) := by
      push_neg
      exact le_of_lt hs
    simp only [TrainingParam.get_next_epsilon, toRat_int, Int.cast_zero]
    rw [if_neg c1, if_neg c2]
    norm_num
  · have c1 : ¬ (p.step_for_final_epsilon.toRat > p.step_for_final_epsilon.toRat) :=
      lt_irrefl _
    simp only [TrainingParam.get_next_epsilon, toRat_float]
    rw [if_neg c1, if_neg c2, Except.ok.injEq]
    rw [hfacto, div_self (ne_of_gt hsR), neg_one_mul, Real.exp_neg,
      Real.exp_log (div_pos hI0 hF), inv_div]
    field_simp
  · intro a b ha hab hbs x y hx hy
    have has : a ≤ p.step_for_final_epsilon.toRat := le_trans hab hbs
    have ca1 : ¬ (a > p.step_for_final_epsilon.toRat) := by push_neg; exact has
    have cb1 : ¬ (b > p.step_for_final_epsilon.toRat) := by push_neg; exact hbs
    simp only [TrainingParam.get_next_epsilon, toRat_float] at hx hy
    rw [if_neg ca1, if_neg c2, Except.ok.injEq] at hx
    rw [if_neg cb1, if_neg c2, Except.ok.injEq] at hy
    rw [← hx, ← hy]
    apply mul_le_mul_of_nonneg_left _ (le_of_lt hI0)
    apply Real.exp_le_exp.2
    rw [neg_mul, neg_mul]
    apply neg_le_neg
    apply mul_le_mul_of_nonneg_right _ hlog
    apply (div_le_div_iff_of_pos_right hsR).2
    exact_mod_cast hab

/-- Witness for the C4 theorem at the concrete valid configuration
`decayTP` (`initial_epsilon = 1 > final_epsilon = 0.5 > 0`). -/
theorem get_next_epsilon_decay_schedule_witness :
    (decayTP.get_next_epsilon (.int 0)).2 = Except.ok ((decayTP.initial_epsilon.toRat : ℝ)) :=
  (get_next_epsilon_decay_schedule decayTP
    (by norm_num [decayTP, TrainingParam.init, pyFloat, PyVal.toRat])
    (by norm_num [decayTP, TrainingParam.init, pyFloat, PyVal.toRat])
    (by norm_num [decayTP, TrainingParam.init, pyFloat, PyVal.toRat])
    (by norm_num [decayTP, TrainingParam.init, pyFloat, PyVal.toRat])).1

/-- Claim C5: serialization round-trip: for a `TrainingParam` whose
persisted integer attributes hold integer values, `from_dict(to_dict(p))`
reproduces the numeric value of every persisted attribute exactly (the
`_int_attr` fields and the `_float_attr` fields). -/
theorem from_dict_to_dict_roundtrip (p : TrainingParam)
    (h1 : p.buffer_size.toRat.den = 1)
    (h2 : p.minibatch_size.toRat.den = 1)
    (h3 : p.step_for_final_epsilon.toRat.den = 1)
    (h4 : p.min_observation.toRat.den = 1)
    (h5 : p.last_step.toRat.den = 1)
    (h6 : p.num_frames.toRat.den = 1)
    (h7 : p.update_freq.toRat.den = 1)
    (h8 : p.min_iter.toRat.den = 1)
    (h9 : p.max_iter.toRat.den = 1)
    (h10 : p.update_tensorboard_freq.toRat.den = 1)
    (h11 : p.save_model_each.toRat.den = 1) :
    (TrainingParam.from_dict p.to_dict).buffer_size.toRat = p.buffer_size.toRat ∧
    (TrainingParam.from_dict p.to_dict).minibatch_size.toRat = p.minibatch_size.toRat ∧
    (TrainingParam.from_dict p.to_dict).step_for_final_epsilon.toRat = p.step_for_final_epsilon.toRat ∧
    (TrainingParam.from_dict p.to_dict).min_observation.toRat = p.min_observation.toRat ∧
    (TrainingParam.from_dict p.to_dict).last_step.toRat = p.last_step.toRat ∧
    (TrainingParam.from_dict p.to_dict).num_frames.toRat = p.num_frames.toRat ∧
    (TrainingParam.from_dict p.to_dict).update_freq.toRat = p.update_freq.toRat ∧
    (TrainingParam.from_dict p.to_dict).min_iter.toRat = p.min_iter.toRat ∧
    (TrainingParam.from_dict p.to_dict).max_iter.toRat = p.max_iter.toRat ∧
    (TrainingParam.from_dict p.to_dict).update_tensorboard_freq.toRat = p.update_tensorboard_freq.toRat ∧
    (TrainingParam.from_dict p.to_dict).save_model_each.toRat = p.save_model_each.toRat ∧
    (TrainingParam.from_dict p.to_dict).final_epsilon.toRat = p.final_epsilon.toRat ∧
    (TrainingParam.from_dict p.to_dict).initial_epsilon.toRat = p.initial_epsilon.toRat ∧
    (TrainingParam.from_dict p.to_dict).lr.toRat = p.lr.toRat ∧
    (TrainingParam.from_dict p.to_dict).lr_decay_steps.toRat = p.lr_decay_steps.toRat ∧
    (TrainingParam.from_dict p.to_dict).lr_decay_rate.toRat = p.lr_decay_rate.toRat ∧
    (TrainingParam.from_dict p.to_dict).discount_factor.toRat = p.discount_factor.toRat ∧
    (TrainingParam.from_dict p.to_dict).tau.toRat = p.tau.toRat := by
  refine ⟨?_, ?_, ?_, ?_, ?_, ?_, ?_, ?_, ?_, ?_, ?_, ?_, ?_, ?_, ?_, ?_, ?_, ?_⟩
  · have e : (TrainingParam.from_dict p.to_dict).buffer_size
        = PyVal.int (ratTrunc ((ratTrunc p.buffer_size.toRat : ℤ) : ℚ)) := rfl
    rw [e, toRat_int]
    exact int_roundtrip _ h1
  · have e : (TrainingParam.from_dict p.to_dict).minibatch_size
        = PyVal.int (ratTrunc ((ratTrunc p.minibatch_size.toRat : ℤ) : ℚ)) := rfl
    rw [e, toRat_int]
    exact int_roundtrip _ h2
  · have e : (TrainingParam.from_dict p.to_dict).step_for_final_epsilon
        = PyVal.int (ratTrunc ((ratTrunc p.step_for_final_epsilon.toRat : ℤ) : ℚ)) := rfl
    rw [e, toRat_int]
    exact int_roundtrip _ h3
  · have e : (TrainingParam.from_dict p.to_dict).min_observation
        = PyVal.int (ratTrunc ((ratTrunc p.min_observation.toRat : ℤ) : ℚ)) := rfl
    rw [e, toRat_int]
    exact int_roundtrip _ h4
  · have e : (TrainingParam.from_dict p.to_dict).last_step
        = PyVal.int (ratTrunc ((ratTrunc p.last_step.toRat : ℤ) : ℚ)) := rfl
    rw [e, toRat_int]
    exact int_roundtrip _ h5
  · have e : (TrainingParam.from_dict p.to_dict).num_frames
        = PyVal.int (ratTrunc ((ratTrunc p.num_frames.toRat : ℤ) : ℚ)) := rfl
    rw [e, toRat_int]
    exact int_roundtrip _ h6
  · have e : (TrainingParam.from_dict p.to_dict).update_freq
        = PyVal.int (ratTrunc ((ratTrunc p.update_freq.toRat : ℤ) : ℚ)) := rfl
    rw [e, toRat_int]
    exact int_roundtrip _ h7
  · have e : (TrainingParam.from_dict p.to_dict).min_iter
        = PyVal.int (ratTrunc ((ratTrunc p.min_iter.toRat : ℤ) : ℚ)) := rfl
    rw [e, toRat_int]
    exact int_roundtrip _ h8
  · have e : (TrainingParam.from_dict p.to_dict).max_iter
        = PyVal.int (ratTrunc ((ratTrunc p.max_iter.toRat : ℤ) : ℚ)) := rfl
    rw [e, toRat_int]
    exact int_roundtrip _ h9
  · have e : (TrainingParam.from_dict p.to_dict).update_tensorboard_freq
        = PyVal.int (ratTrunc ((ratTrunc p.update_tensorboard_freq.toRat : ℤ) : ℚ)) := rfl
    rw [e, toRat_int]
    exact int_roundtrip _ h10
  · have e : (TrainingParam.from_dict p.to_dict).save_model_each
        = PyVal.int (ratTrunc ((ratTrunc p.save_model_each.toRat : ℤ) : ℚ)) := rfl
    rw [e, toRat_int]
    exact int_roundtrip _ h11
  · rfl
  · rfl
  · rfl
  · rfl
  · rfl
  · rfl
  · rfl

/-- Witness for the C5 round-trip theorem at the default configuration. -/
theorem from_dict_to_dict_roundtrip_witness :
    (TrainingParam.from_dict TrainingParam.default.to_dict).buffer_size.toRat
      = TrainingParam.default.buffer_size.toRat ∧
    (TrainingParam.from_dict TrainingParam.default.to_dict).minibatch_size.toRat
      = TrainingParam.default.minibatch_size.toRat ∧
    (TrainingParam.from_dict TrainingParam.default.to_dict).step_for_final_epsilon.toRat
      = TrainingParam.default.step_for_final_epsilon.toRat ∧
    (TrainingParam.from_dict TrainingParam.default.to_dict).min_observation.toRat
      = TrainingParam.default.min_observation.toRat ∧
    (TrainingParam.from_dict TrainingParam.default.to_dict).last_step.toRat
      = TrainingParam.default.last_step.toRat ∧
    (TrainingParam.from_dict TrainingParam.default.to_dict).num_frames.toRat
      = TrainingParam.default.num_frames.toRat ∧
    (TrainingParam.from_dict TrainingParam.default.to_dict).update_freq.toRat
      = TrainingParam.default.update_freq.toRat ∧
    (TrainingParam.from_dict TrainingParam.default.to_dict).min_iter.toRat
      = TrainingParam.default.min_iter.toRat ∧
    (TrainingParam.from_dict TrainingParam.default.to_dict).max_iter.toRat
      = TrainingParam.default.max_iter.toRat ∧
    (TrainingParam.from_dict TrainingParam.default.to_dict).update_tensorboard_freq.toRat
      = TrainingParam.default.update_tensorboard_freq.toRat ∧
    (TrainingParam.from_dict TrainingParam.default.to_dict).save_model_each.toRat
      = TrainingParam.default.save_model_each.toRat ∧
    (TrainingParam.from_dict TrainingParam.default.to_dict).final_epsilon.toRat
      = TrainingParam.default.final_epsilon.toRat ∧
    (TrainingParam.from_dict TrainingParam.default.to_dict).initial_epsilon.toRat
      = TrainingParam.default.initial_epsilon.toRat ∧
    (TrainingParam.from_dict TrainingParam.default.to_dict).lr.toRat
      = TrainingParam.default.lr.toRat ∧
    (TrainingParam.from_dict TrainingParam.default.to_dict).lr_decay_steps.toRat
      = TrainingParam.default.lr_decay_steps.toRat ∧
    (TrainingParam.from_dict TrainingParam.default.to_dict).lr_decay_rate.toRat
      = TrainingParam.default.lr_decay_rate.toRat ∧
    (TrainingParam.from_dict TrainingParam.default.to_dict).discount_factor.toRat
      = TrainingParam.default.discount_factor.toRat ∧
    (TrainingParam.from_dict TrainingParam.default.to_dict).tau.toRat
      = TrainingParam.default.tau.toRat :=
  from_dict_to_dict_roundtrip TrainingParam.default (by decide) (by decide) (by decide) (by decide) (by decide) (by decide) (by decide) (by decide) (by decide) (by decide) (by decide)

/-- Claim C6 counterexample: `TrainingParam(buffer_size=0.5)` stores
`buffer_size` as the float `0.5` even though `buffer_size` is listed in
`_int_attr`: the constructor does not coerce it to an integer. -/
theorem init_coercion_cex :
    "buffer_size" ∈ TrainingParam.int_attr ∧
    halfBufTP.buffer_size = PyVal.float (1/2) ∧
    (halfBufTP.buffer_size).isIntVal = false :=
  ⟨by decide, rfl, rfl⟩

/-- Claim C6 (amended): the constructor coerces only `final_epsilon`,
`initial_epsilon`, `step_for_final_epsilon`, `lr_decay_steps`,
`lr_decay_rate`, `discount_factor` and `tau` to float and `num_frames` to
int; `buffer_size`, `minibatch_size`, `min_observation`, `lr`,
`update_freq`, `min_iter`, `max_iter`, `update_tensorboard_freq` and
`save_model_each` are stored exactly as passed, and
`step_for_final_epsilon` — an `_int_attr` field — is stored as a float. -/
theorem init_stored_fields
    (buffer_size minibatch_size step_for_final_epsilon min_observation final_epsilon initial_epsilon lr lr_decay_steps lr_decay_rate num_frames discount_factor tau update_freq min_iter max_iter update_tensorboard_freq save_model_each : PyVal) :
    (TrainingParam.init buffer_size minibatch_size step_for_final_epsilon min_observation final_epsilon initial_epsilon lr lr_decay_steps lr_decay_rate num_frames discount_factor tau update_freq min_iter max_iter update_tensorboard_freq save_model_each).buffer_size = buffer_size ∧
    (TrainingParam.init buffer_size minibatch_size step_for_final_epsilon min_observation final_epsilon initial_epsilon lr lr_decay_steps lr_decay_rate num_frames discount_factor tau update_freq min_iter max_iter update_tensorboard_freq save_model_each).minibatch_size = minibatch_size ∧
    (TrainingParam.init buffer_size minibatch_size step_for_final_epsilon min_observation final_epsilon initial_epsilon lr lr_decay_steps lr_decay_rate num_frames discount_factor tau update_freq min_iter max_iter update_tensorboard_freq save_model_each).min_observation = min_observation ∧
    (TrainingParam.init buffer_size minibatch_size step_for_final_epsilon min_observation final_epsilon initial_epsilon lr lr_decay_steps lr_decay_rate num_frames discount_factor tau update_freq min_iter max_iter update_tensorboard_freq save_model_each).lr = lr ∧
    (TrainingParam.init buffer_size minibatch_size step_for_final_epsilon min_observation final_epsilon initial_epsilon lr lr_decay_steps lr_decay_rate num_frames discount_factor tau update_freq min_iter max_iter update_tensorboard_freq save_model_each).update_freq = update_freq ∧
    (TrainingParam.init buffer_size minibatch_size step_for_final_epsilon min_observation final_epsilon initial_epsilon lr lr_decay_steps lr_decay_rate num_frames discount_factor tau update_freq min_iter max_iter update_tensorboard_freq save_model_each).min_iter = min_iter ∧
    (TrainingParam.init buffer_size minibatch_size step_for_final_epsilon min_observation final_epsilon initial_epsilon lr lr_decay_steps lr_decay_rate num_frames discount_factor tau update_freq min_iter max_iter update_tensorboard_freq save_model_each).max_iter = max_iter ∧
    (TrainingParam.init buffer_size minibatch_size step_for_final_epsilon min_observation final_epsilon initial_epsilon lr lr_decay_steps lr_decay_rate num_frames discount_factor tau update_freq min_iter max_iter update_tensorboard_freq save_model_each).update_tensorboard_freq = update_tensorboard_freq ∧
    (TrainingParam.init buffer_size minibatch_size step_for_final_epsilon min_observation final_epsilon initial_epsilon lr lr_decay_steps lr_decay_rate num_frames discount_factor tau update_freq min_iter max_iter update_tensorboard_freq save_model_each).save_model_each = save_model_each ∧
    (TrainingParam.init buffer_size minibatch_size step_for_final_epsilon min_observation final_epsilon initial_epsilon lr lr_decay_steps lr_decay_rate num_frames discount_factor tau update_freq min_iter max_iter update_tensorboard_freq save_model_each).final_epsilon = pyFloat final_epsilon ∧
    ((TrainingParam.init buffer_size minibatch_size step_for_final_epsilon min_observation final_epsilon initial_epsilon lr lr_decay_steps lr_decay_rate num_frames discount_factor tau update_freq min_iter max_iter update_tensorboard_freq save_model_each).final_epsilon).isIntVal = false ∧
    (TrainingParam.init buffer_size minibatch_size step_for_final_epsilon min_observation final_epsilon initial_epsilon lr lr_decay_steps lr_decay_rate num_frames discount_factor tau update_freq min_iter max_iter update_tensorboard_freq save_model_each).initial_epsilon = pyFloat initial_epsilon ∧
    ((TrainingParam.init buffer_size minibatch_size step_for_final_epsilon min_observation final_epsilon initial_epsilon lr lr_decay_steps lr_decay_rate num_frames discount_factor tau update_freq min_iter max_iter update_tensorboard_freq save_model_each).initial_epsilon).isIntVal = false ∧
    (TrainingParam.init buffer_size minibatch_size step_for_final_epsilon min_observation final_epsilon initial_epsilon lr lr_decay_steps lr_decay_rate num_frames discount_factor tau update_freq min_iter max_iter update_tensorboard_freq save_model_each).step_for_final_epsilon = pyFloat step_for_final_epsilon ∧
    ((TrainingParam.init buffer_size minibatch_size step_for_final_epsilon min_observation final_epsilon initial_epsilon lr lr_decay_steps lr_decay_rate num_frames discount_factor tau update_freq min_iter max_iter update_tensorboard_freq save_model_each).step_for_final_epsilon).isIntVal = false ∧
    (TrainingParam.init buffer_size minibatch_size step_for_final_epsilon min_observation final_epsilon initial_epsilon lr lr_decay_steps lr_decay_rate num_frames discount_factor tau update_freq min_iter max_iter update_tensorboard_freq save_model_each).lr_decay_steps = pyFloat lr_decay_steps ∧
    ((TrainingParam.init buffer_size minibatch_size step_for_final_epsilon min_observation final_epsilon initial_epsilon lr lr_decay_steps lr_decay_rate num_frames discount_factor tau update_freq min_iter max_iter update_tensorboard_freq save_model_each).lr_decay_steps).isIntVal = false ∧
    (TrainingParam.init buffer_size minibatch_size step_for_final_epsilon min_observation final_epsilon initial_epsilon lr lr_decay_steps lr_decay_rate num_frames discount_factor tau update_freq min_iter max_iter update_tensorboard_freq save_model_each).lr_decay_rate = pyFloat lr_decay_rate ∧
    ((TrainingParam.init buffer_size minibatch_size step_for_final_epsilon min_observation final_epsilon initial_epsilon lr lr_decay_steps lr_decay_rate num_frames discount_factor tau update_freq min_iter max_iter update_tensorboard_freq save_model_each).lr_decay_rate).isIntVal = false ∧
    (TrainingParam.init buffer_size minibatch_size step_for_final_epsilon min_observation final_epsilon initial_epsilon lr lr_decay_steps lr_decay_rate num_frames discount_factor tau update_freq min_iter max_iter update_tensorboard_freq save_model_each).discount_factor = pyFloat discount_factor ∧
    ((TrainingParam.init buffer_size minibatch_size step_for_final_epsilon min_observation final_epsilon initial_epsilon lr lr_decay_steps lr_decay_rate num_frames discount_factor tau update_freq min_iter max_iter update_tensorboard_freq save_model_each).discount_factor).isIntVal = false ∧
    (TrainingParam.init buffer_size minibatch_size step_for_final_epsilon min_observation final_epsilon initial_epsilon lr lr_decay_steps lr_decay_rate num_frames discount_factor tau update_freq min_iter max_iter update_tensorboard_freq save_model_each).tau = pyFloat tau ∧
    ((TrainingParam.init buffer_size minibatch_size step_for_final_epsilon min_observation final_epsilon initial_epsilon lr lr_decay_steps lr_decay_rate num_frames discount_factor tau update_freq min_iter max_iter update_tensorboard_freq save_model_each).tau).isIntVal = false ∧
    (TrainingParam.init buffer_size minibatch_size step_for_final_epsilon min_observation final_epsilon initial_epsilon lr lr_decay_steps lr_decay_rate num_frames discount_factor tau update_freq min_iter max_iter update_tensorboard_freq save_model_each).num_frames = pyIntOf num_frames ∧
    ((TrainingParam.init buffer_size minibatch_size step_for_final_epsilon min_observation final_epsilon initial_epsilon lr lr_decay_steps lr_decay_rate num_frames discount_factor tau update_freq min_iter max_iter update_tensorboard_freq save_model_each).num_frames).isIntVal = true ∧
    "step_for_final_epsilon" ∈ TrainingParam.int_attr :=
  ⟨rfl, rfl, rfl, rfl, rfl, rfl, rfl, rfl, rfl, rfl, rfl, rfl, rfl, rfl, rfl, rfl, rfl, rfl, rfl, rfl, rfl, rfl, rfl, rfl, rfl, by decide⟩

/-- Claim C7 counterexample: `default_max_iter_fun(-5)` is `0` (Python
`int()` truncates toward zero), not `floor(-5 * 0.1) = -1`. -/
theorem default_max_iter_fun_cex :
    default_max_iter_fun ((-5 : ℤ) : ℚ) ≠ ⌊((-5 : ℤ) : ℚ) * 0.1⌋ := by
  have e1 : default_max_iter_fun ((-5 : ℤ) : ℚ) = 0 := by
    norm_num [default_max_iter_fun, ratTrunc]
  have e2 : (⌊((-5 : ℤ) : ℚ) * 0.1⌋ : ℤ) = -1 := by norm_num
  rw [e1, e2]
  decide

/-- Claim C7 (amended): `default_max_iter_fun(success_count)` truncates
`success_count * 0.1` toward zero, which agrees with
`floor(success_count * 0.1)` for every non-negative integer
`success_count`; in particular `default_max_iter_fun(100) = 10` and
`default_max_iter_fun(5) = 0`. -/
theorem default_max_iter_fun_floor :
    (∀ n : ℤ, 0 ≤ n → default_max_iter_fun (n : ℚ) = ⌊(n : ℚ) * 0.1⌋) ∧
    default_max_iter_fun (100 : ℚ) = 10 ∧
    default_max_iter_fun (5 : ℚ) = 0 := by
  refine ⟨?_, ?_, ?_⟩
  · intro n h
    unfold default_max_iter_fun ratTrunc
    rw [if_pos]
    exact mul_nonneg (by exact_mod_cast h) (by norm_num)
  · norm_num [default_max_iter_fun, ratTrunc]
  · norm_num [default_max_iter_fun, ratTrunc]

/-- Witness for the amended C7 theorem at `success_count = 100`. -/
theorem default_max_iter_fun_floor_witness :
    default_max_iter_fun ((100 : ℤ) : ℚ) = ⌊((100 : ℤ) : ℚ) * 0.1⌋ :=
  default_max_iter_fun_floor.1 100 (by norm_num)

/-- Claim C8: `save_as_json` fails with the missing-directory error
(`RuntimeError`, the spec's `DirectoryNotFound`) when the path does not
exist, fails with `NotADirectoryError` when the path exists but is not a
directory, and otherwise writes the key-sorted serialized mapping (a
permutation of `to_dict()`, sorted by key — `sort_keys=True`) to
`directory/filename`, the filename defaulting to
`"training_parameters.json"`. -/
theorem save_as_json_spec (p : TrainingParam) (pathExists isDirectory : Bool)
    (path : String) (name : Option String) :
    (pathExists = false →
      p.save_as_json pathExists isDirectory path name = Except.error PyErr.RuntimeError) ∧
    (pathExists = true → isDirectory = false →
      p.save_as_json pathExists isDirectory path name = Except.error PyErr.NotADirectoryError) ∧
    (pathExists = true → isDirectory = true →
      p.save_as_json pathExists isDirectory path name =
        Except.ok (path ++ "/" ++ (match name with
          | none => "training_parameters.json"
          | some n => n), sortKeys p.to_dict) ∧
      (sortKeys p.to_dict).Perm p.to_dict ∧
      List.Sorted (fun x y => x.1 ≤ y.1) (sortKeys p.to_dict)) := by
  refine ⟨?_, ?_, ?_⟩
  · intro h
    subst h
    rfl
  · intro h1 h2
    subst h1
    subst h2
    rfl
  · intro h1 h2
    subst h1
    subst h2
    refine ⟨rfl, List.perm_insertionSort _ _, ?_⟩
    haveI : IsTotal (String × PyVal) (fun x y => x.1 ≤ y.1) := ⟨fun a b => le_total a.1 b.1⟩
    haveI : IsTrans (String × PyVal) (fun x y => x.1 ≤ y.1) :=
      ⟨fun a b c hab hbc => le_trans hab hbc⟩
    exact List.sorted_insertionSort _ _

/-- Witness for the C8 theorem: saving into a nonexistent directory fails
with the missing-directory error. -/
theorem save_as_json_spec_witness :
    TrainingParam.default.save_as_json false true "logs" none =
      Except.error PyErr.RuntimeError :=
  (save_as_json_spec TrainingParam.default false true "logs" none).1 rfl

/-- Claim C9: the `_exp_facto` invariant (`exp_facto = ln(initial_epsilon /
final_epsilon)` when `final_epsilon > 0`, else `1`) holds after
construction and after `from_dict`, and is preserved by `tell_step` and
`get_next_epsilon` (the operations that return a new state; `do_train`,
`to_dict` and `save_as_json` do not produce a state at all in this
embedding, reflecting that they assign no attribute). -/
theorem exp_facto_invariant_preserved :
    (∀ b1 b2 b3 b4 b5 b6 b7 b8 b9 b10 b11 b12 b13 b14 b15 b16 b17 : PyVal,
      expFactoInv (TrainingParam.init b1 b2 b3 b4 b5 b6 b7 b8 b9 b10 b11 b12 b13 b14 b15 b16 b17)) ∧
    (∀ d : Dict, expFactoInv (TrainingParam.from_dict d)) ∧
    (∀ p : TrainingParam, ∀ v : PyVal, expFactoInv p →
      expFactoInv (p.tell_step v) ∧ expFactoInv (p.get_next_epsilon v).1) :=
  ⟨fun _ _ _ _ _ _ _ _ _ _ _ _ _ _ _ _ _ => rfl,
   fun _ => rfl,
   fun _ _ h => ⟨h, h⟩⟩

/-- Witness for the C9 theorem: the invariant holds for the default
configuration and survives a `tell_step`. -/
theorem exp_facto_invariant_preserved_witness :
    expFactoInv (TrainingParam.default.tell_step (PyVal.int 7)) :=
  (exp_facto_invariant_preserved.2.2 TrainingParam.default (PyVal.int 7)
    (exp_facto_invariant_preserved.1 (.int 40000) (.int 64) (.int 100000) (.int 5000)
      (.float (1 / (7 * 288))) (.float 0.4) (.float 1e-4) (.int 10000)
      (.float 0.999) (.int 1) (.float 0.99) (.float 0.1) (.int 256) (.int 50)
      (.int 8064) (.int 1000) (.int 10000))).1

end L2RPN
